import Mathlib

/-!
Shallow embedding of the transaction-lifecycle core of the
PaymentGatewaySystem repository (Python, `src/app/...`), together with
theorems settling the specification claims about it.

Conventions of the embedding:
* Python `Decimal` balances and amounts are `ℚ` (exact arithmetic, a
  superset of fixed-precision decimals).
* Stateful database code is embedded at commit granularity: a service
  call is a function `State → Except Err State`; `.ok s` is the state
  committed by the call's single `db.commit()`, and `.error e` means the
  call raised `e` after `db.rollback()` (or before any mutation), so the
  committed state is the caller's input state unchanged.  This matches
  the code, where every service method commits at most once
  (`_update_and_commit`) and every failure path rolls back.
* Exceptions are the inductive `Err`; the worker's handler inspects the
  exception message only for the substring "not found"
  (`transaction_processor.py`), reflected by `Err.mentionsNotFound`.
-/

/-- Embedding of `TransactionStatus` from `app/core/enums.py`. -/
inductive TransactionStatus
  | PENDING
  | PROCESSING
  | SUCCESS
  | FAILED
  | PENDING_REVIEW
  deriving DecidableEq, Repr

/-- The terminal statuses named by the spec: SUCCESS, FAILED and
PENDING_REVIEW are terminal; PENDING and PROCESSING are not. -/
def TransactionStatus.isTerminal : TransactionStatus → Bool
  | .SUCCESS => true
  | .FAILED => true
  | .PENDING_REVIEW => true
  | _ => false

/-- Embedding of `TransactionType` from `app/core/enums.py`. -/
inductive TransactionType
  | DEPOSIT
  | WITHDRAWAL
  deriving DecidableEq, Repr

/-- Embedding of `BankResponseStatus` from `app/core/enums.py`. -/
inductive BankResponseStatus
  | SUCCESS
  | FAILED
  | TIMEOUT
  | INSUFFICIENT_FUNDS
  | UNAVAILABLE
  deriving DecidableEq, Repr

/-- The exceptions raised on the paths modelled here, identified by
their Python class (and, where the worker dispatches on it, their
message).  `amountNotPositive` is `ValueError("Amount must be
positive")` from `account_repository.py`; `transactionNotFound` is
`ValueError("Transaction ... not found")` from
`BaseTransactionService._get_transaction_or_raise`. -/
inductive Err
  | amountNotPositive
  | insufficientBalance
  | accountNotFound
  | transactionNotFound
  | concurrentUpdate
  | bankTransient
  deriving DecidableEq, Repr

/-- Embedding of `GenericTransactionProcessor._handle_exception` tests
`"not found" in str(error).lower()`.  Of the modelled exceptions, the
messages of `AccountNotFoundError` ("Account ... not found") and of the
transaction lookup `ValueError` ("Transaction ... not found") contain
that substring; the others do not. -/
def Err.mentionsNotFound : Err → Bool
  | .accountNotFound => true
  | .transactionNotFound => true
  | _ => false

/-- Embedding of `AccountRepository.add_balance` (`account_repository.py`): raises
`ValueError` unless `amount > 0`, else sets `balance + amount`. -/
def add_balance (balance amount : ℚ) : Except Err ℚ :=
  if amount ≤ 0 then .error .amountNotPositive
  else .ok (balance + amount)

/-- Embedding of `AccountRepository.subtract_balance` (`account_repository.py`):
raises `ValueError` unless `amount > 0`, raises
`InsufficientBalanceError` when `balance < amount` (before any
mutation), else sets `balance - amount`. -/
def subtract_balance (balance amount : ℚ) : Except Err ℚ :=
  if amount ≤ 0 then .error .amountNotPositive
  else if balance < amount then .error .insufficientBalance
  else .ok (balance - amount)

/-- The fields of a `Transaction` row that the worker pipeline reads or
writes (`app/infrastructure/models/transaction.py`). -/
structure Txn where
  status : TransactionStatus
  amount : ℚ
  txType : TransactionType
  deriving DecidableEq, Repr

/-- The committed database state seen by one worker job: the job's
transaction row (`none` when the row was deleted / rolled back, the
case the processor maps to NOT_FOUND) and the balance of its account.
The account row itself is taken as present, as it is for every job
reachable from a created transaction. -/
structure WorkerDB where
  tx : Option Txn
  balance : ℚ
  deriving DecidableEq, Repr

/-- Embedding of `BaseTransactionService.update_status`: look the transaction up
(raising when absent), set the status field unconditionally — there is
no terminal-status guard — and commit. -/
def update_status (db : WorkerDB) (s : TransactionStatus) : Except Err WorkerDB :=
  match db.tx with
  | none => .error .transactionNotFound
  | some t => .ok { db with tx := some { t with status := s } }

/-- Embedding of `BaseTransactionService.mark_pending_review`: look the transaction
up, set status PENDING_REVIEW (and the reason fields, not modelled) and
commit. -/
def mark_pending_review (db : WorkerDB) : Except Err WorkerDB :=
  match db.tx with
  | none => .error .transactionNotFound
  | some t => .ok { db with tx := some { t with status := .PENDING_REVIEW } }

/-- Embedding of `DepositService._complete_deposit_locked` applied to transaction
`t`: lock the account row, `add_balance`, set status SUCCESS, commit —
both changes in the one commit of `_update_and_commit`.  On any
exception the session is rolled back and the exception re-raised, so
the committed state is unchanged. -/
def complete_deposit_locked (t : Txn) (db : WorkerDB) : Except Err WorkerDB :=
  match add_balance db.balance t.amount with
  | .error e => .error e
  | .ok b => .ok { tx := some { t with status := .SUCCESS }, balance := b }

/-- Embedding of `WithdrawalService._complete_withdrawal_locked` applied to
transaction `t`: lock the account row, `subtract_balance` (which raises
`InsufficientBalanceError` when `balance < amount`, before mutating),
set status SUCCESS, commit — both changes in the one commit.  On any
exception the session is rolled back and the exception re-raised. -/
def complete_withdrawal_locked (t : Txn) (db : WorkerDB) : Except Err WorkerDB :=
  match subtract_balance db.balance t.amount with
  | .error e => .error e
  | .ok b => .ok { tx := some { t with status := .SUCCESS }, balance := b }

/-- One call of `SyncDistributedLock` against the cache, as used by
`complete_deposit` / `complete_withdrawal`.  The lock's state is its
`acquired` flag and owner token; the cache call outcome is
`.ok b` (the `SET NX EX` returned `b`) or `.error msg` (the cache
raised). -/
structure SyncLock where
  key : String
  lock_identifier : String
  acquired : Bool
  deriving DecidableEq, Repr

/-- Embedding of `SyncDistributedLock.acquire` (`distributed_lock.py` 216-240): runs
the cache `SET NX EX` inside `try`; on any exception it logs, sets
`self.acquired = False` and returns `False` — it never re-raises.
Returns the updated lock and the boolean result. -/
def sync_lock_acquire (l : SyncLock) (cacheResult : Except String Bool) :
    SyncLock × Bool :=
  match cacheResult with
  | .ok b => ({ l with acquired := b }, b)
  | .error _ => ({ l with acquired := false }, false)

/-- Embedding of `DepositService.complete_deposit`: look the transaction up; when a
redis client is configured, enter a fresh `SyncDistributedLock` (the
context manager calls `acquire`; `lock` here carries the fresh lock
instance and its cache-call outcome) and raise `ConcurrentUpdateError`
when `lock.acquired` is false; otherwise — and in the fallback without
redis, which is the worker's path since
`GenericTransactionProcessor.process` builds the service as
`service_class(db)` with no redis — run the locked completion. -/
def complete_deposit (lock : Option (SyncLock × Except String Bool))
    (db : WorkerDB) : Except Err WorkerDB :=
  match db.tx with
  | none => .error .transactionNotFound
  | some t =>
    match lock with
    | some (l0, r) =>
      if (sync_lock_acquire l0 r).1.acquired then complete_deposit_locked t db
      else .error .concurrentUpdate
    | none => complete_deposit_locked t db

/-- Embedding of `WithdrawalService.complete_withdrawal`: same shape as
`complete_deposit`, with the withdrawal locked completion. -/
def complete_withdrawal (lock : Option (SyncLock × Except String Bool))
    (db : WorkerDB) : Except Err WorkerDB :=
  match db.tx with
  | none => .error .transactionNotFound
  | some t =>
    match lock with
    | some (l0, r) =>
      if (sync_lock_acquire l0 r).1.acquired then complete_withdrawal_locked t db
      else .error .concurrentUpdate
    | none => complete_withdrawal_locked t db

/-- Embedding of `fail_deposit` / `fail_withdrawal`: look the transaction up, set
status FAILED (and error fields, not modelled), commit. -/
def fail_transaction (db : WorkerDB) : Except Err WorkerDB :=
  match db.tx with
  | none => .error .transactionNotFound
  | some t => .ok { db with tx := some { t with status := .FAILED } }

/-- The dict returned by `GenericTransactionProcessor.process`, plus
`retryRaise` for the paths that re-raise so that the queue re-delivers
the job. -/
inductive JobOutcome
  | success
  | failed
  | notFound
  | pendingReview
  | retryRaise
  deriving DecidableEq, Repr

/-- Strategy dispatch (`strategies.py`): the deposit strategy invokes
`complete_deposit`, the withdrawal strategy `complete_withdrawal`,
each built without redis in the worker (`service_class(db)`). -/
def complete_transaction (k : TransactionType) (db : WorkerDB) :
    Except Err WorkerDB :=
  match k with
  | .DEPOSIT => complete_deposit none db
  | .WITHDRAWAL => complete_withdrawal none db

/-- Embedding of `GenericTransactionProcessor._mark_for_review`: on a fresh session,
`mark_pending_review`; any exception from the marking is swallowed, and
the returned dict has status PENDING_REVIEW in every case. -/
def mark_for_review (db : WorkerDB) : WorkerDB × JobOutcome :=
  match mark_pending_review db with
  | .ok db1 => (db1, .pendingReview)
  | .error _ => (db, .pendingReview)

/-- Embedding of `GenericTransactionProcessor._handle_exception`: a "not found"
message returns NOT_FOUND without retry; otherwise, when
`retries ≥ max_retries` the transaction is marked for review, else the
exception is re-raised so the queue re-delivers with backoff. -/
def handle_exception (db : WorkerDB) (e : Err) (retries max_retries : Nat) :
    WorkerDB × JobOutcome :=
  if e.mentionsNotFound then (db, .notFound)
  else if retries ≥ max_retries then mark_for_review db
  else (db, .retryRaise)

/-- Embedding of `GenericTransactionProcessor.process` for one delivery of a job:
set status PROCESSING (unconditionally, via `update_status`), call the
bank, then classify: SUCCESS → type-specific completion;
TIMEOUT / UNAVAILABLE → raise a transient exception; anything else →
type-specific failure.  Every exception inside the `try` flows to
`_handle_exception`.  `bank` is the status the bank call returned,
`retries` the delivery's `self.request.retries`, `k` the strategy. -/
def process (db : WorkerDB) (bank : BankResponseStatus)
    (retries max_retries : Nat) (k : TransactionType) :
    WorkerDB × JobOutcome :=
  match update_status db .PROCESSING with
  | .error e => handle_exception db e retries max_retries
  | .ok db1 =>
    match bank with
    | .SUCCESS =>
      match complete_transaction k db1 with
      | .ok db2 => (db2, .success)
      | .error e => handle_exception db1 e retries max_retries
    | .TIMEOUT => handle_exception db1 .bankTransient retries max_retries
    | .UNAVAILABLE => handle_exception db1 .bankTransient retries max_retries
    | _ =>
      match fail_transaction db1 with
      | .ok db2 => (db2, .failed)
      | .error e => handle_exception db1 e retries max_retries

/-- The state touched by `WithdrawalService.create_pending_withdrawal`:
the (locked) account's balance and the transaction rows of the account.
The account lookup is modelled as already resolved: the claim and the
modelled scenario are about an existing account. -/
structure CreationDB where
  balance : ℚ
  txs : List Txn
  deriving DecidableEq, Repr

/-- Embedding of `WithdrawalService.create_pending_withdrawal`
(`withdrawal_service.py` 31-83): read the account with a row lock;
raise `InsufficientBalanceError` when `balance < amount` — before any
row is inserted or any balance touched; otherwise insert
`Transaction(status=PENDING, type=WITHDRAWAL, amount)` and commit.  No
debit is performed. -/
def create_pending_withdrawal (db : CreationDB) (amount : ℚ) :
    Except Err (CreationDB × Txn) :=
  if db.balance < amount then .error .insufficientBalance
  else
    let t : Txn := { status := .PENDING, amount := amount, txType := .WITHDRAWAL }
    .ok ({ db with txs := db.txs ++ [t] }, t)

/-- Embedding of `CircuitState` from `circuit_breaker.py`. -/
inductive CircuitState
  | CLOSED
  | OPEN
  | HALF_OPEN
  deriving DecidableEq, Repr

/-- The mutable fields and parameters of `CircuitBreaker`
(`circuit_breaker.py`).  `time.time()` values are modelled as `ℚ`. -/
structure CircuitBreaker where
  failure_threshold : Nat := 5
  timeout_seconds : ℚ := 30
  success_threshold : Nat := 2
  state : CircuitState
  failure_count : Nat
  success_count : Nat
  last_failure_time : Option ℚ
  deriving DecidableEq, Repr

/-- Embedding of `CircuitBreaker._should_attempt_reset`: false when no failure time
is recorded; otherwise true iff `now - last_failure_time ≥
timeout_seconds`. -/
def should_attempt_reset (cb : CircuitBreaker) (now : ℚ) : Bool :=
  match cb.last_failure_time with
  | none => false
  | some t => decide (cb.timeout_seconds ≤ now - t)

/-- Embedding of `CircuitBreaker._transition_to_half_open`: set HALF_OPEN, reset both
counters. -/
def transition_to_half_open (cb : CircuitBreaker) : CircuitBreaker :=
  { cb with state := .HALF_OPEN, failure_count := 0, success_count := 0 }

/-- Embedding of `CircuitBreaker.can_execute` at time `now`: CLOSED and HALF_OPEN
pass; OPEN passes (and moves to HALF_OPEN) exactly when
`_should_attempt_reset`, else rejects and stays OPEN.  Returns the
boolean and the breaker state after the call. -/
def can_execute (cb : CircuitBreaker) (now : ℚ) : Bool × CircuitBreaker :=
  match cb.state with
  | .CLOSED => (true, cb)
  | .OPEN =>
    if should_attempt_reset cb now then (true, transition_to_half_open cb)
    else (false, cb)
  | .HALF_OPEN => (true, cb)

/-- The lock keyspace of the cache: stored owner token (if any) per
key. -/
def LockCache : Type := String → Option String

/-- The check-and-delete Lua script shared by `DistributedLock.release`
and `SyncDistributedLock.release`: when `self.acquired` is false return
False at once; otherwise delete the key only if the stored value equals
this instance's `lock_identifier`, set `acquired` to false, and return
whether a delete happened.  Returns (cache, lock, released). -/
def lock_release (c : LockCache) (l : SyncLock) :
    LockCache × SyncLock × Bool :=
  if !l.acquired then (c, l, false)
  else
    match c l.key with
    | some v =>
      if v = l.lock_identifier then
        (fun k => if k = l.key then none else c k,
         { l with acquired := false }, true)
      else (c, { l with acquired := false }, false)
    | none => (c, { l with acquired := false }, false)

/-- Embedding of `WebhookDeliveryStatus` (`app/infrastructure/models`). -/
inductive WebhookDeliveryStatus
  | PENDING
  | SENDING
  | SUCCESS
  | FAILED
  deriving DecidableEq, Repr

/-- Embedding of `WEBHOOK_MAX_RETRIES` from `webhook_tasks.py`. -/
def WEBHOOK_MAX_RETRIES : Nat := 5

/-- Embedding of `retry_backoff_max` on `WebhookDeliveryTask` (`webhook_tasks.py`):
the exponential backoff cap in seconds. -/
def WEBHOOK_RETRY_BACKOFF_MAX : Nat := 600

/-- How one `send_webhook_notification` attempt ends:
`delivered` (row SUCCESS, task returns), `permanentFailure` (row
FAILED, task returns, no retry), or `retryRaise s` (the raised
`httpx` error is re-raised for Celery to retry; the row is left with
status `s`). -/
inductive WebhookOutcome
  | delivered
  | permanentFailure
  | retryRaise (rowStatus : WebhookDeliveryStatus)
  deriving DecidableEq, Repr

/-- The outcome classification of `send_webhook_notification`
(`webhook_tasks.py` 57-120) for one attempt.  `statusCode` is the HTTP
status of the POST, `none` when the request raised a network/timeout
error (`httpx.RequestError`); `retries` is `self.request.retries`.
The code raises `raise_for_status()` only for `500 ≤ code < 600`; the
resulting `httpx.HTTPStatusError`, like a network error, lands in the
retry branch, which marks the row FAILED once
`retries ≥ WEBHOOK_MAX_RETRIES - 1` (else PENDING) and re-raises.  A
2xx marks SUCCESS; every other status code — 408 and 429 included —
falls into the permanent-failure branch. -/
def send_webhook_attempt (statusCode : Option Nat) (retries : Nat) :
    WebhookOutcome :=
  match statusCode with
  | some code =>
    if 500 ≤ code ∧ code < 600 then
      .retryRaise (if retries ≥ WEBHOOK_MAX_RETRIES - 1 then .FAILED else .PENDING)
    else if 200 ≤ code ∧ code < 300 then .delivered
    else .permanentFailure
  | none =>
    .retryRaise (if retries ≥ WEBHOOK_MAX_RETRIES - 1 then .FAILED else .PENDING)

/-- Embedding of `IDEMPOTENCY_HEADER` from `app/core/constants.py`. -/
def IDEMPOTENCY_HEADER : String := "Idempotency-Key"

/-- The two logical cache values of the idempotency keyspace
(`idempotency_service.py`): the PROCESSING sentinel and the COMPLETED
record carrying the cached response. -/
inductive IdemEntry
  | processing
  | completed (body : String) (status_code : Nat)
      (headers : List (String × String))
  deriving DecidableEq, Repr

/-- The idempotency keyspace of the cache. -/
def IdemCache : Type := String → Option IdemEntry

/-- Embedding of `IdempotencyService._get_key`. -/
def idem_key (k : String) : String := "idempotency:" ++ k

/-- Embedding of `IdempotencyService.acquire_lock`: `SET NX` of the PROCESSING
sentinel — true iff the key was absent. -/
def acquire_lock (c : IdemCache) (k : String) : Bool × IdemCache :=
  match c (idem_key k) with
  | some _ => (false, c)
  | none => (true, fun x => if x = idem_key k then some .processing else c x)

/-- Embedding of `IdempotencyService.check_existing`: read the stored value. -/
def check_existing (c : IdemCache) (k : String) : Option IdemEntry :=
  c (idem_key k)

/-- Embedding of `IdempotencyService.save_response`: overwrite with the COMPLETED
record (body, status code, headers). -/
def save_response (c : IdemCache) (k : String) (body : String)
    (status_code : Nat) (headers : List (String × String)) : IdemCache :=
  fun x => if x = idem_key k then some (.completed body status_code headers)
           else c x

/-- Embedding of `IdempotencyService.release_lock`: delete the key. -/
def release_lock (c : IdemCache) (k : String) : IdemCache :=
  fun x => if x = idem_key k then none else c x

/-- A response as the middleware sees it. -/
structure HttpResponse where
  body : String
  status_code : Nat
  headers : List (String × String)
  deriving DecidableEq, Repr

/-- The Python dict assignment `cached_headers[IDEMPOTENCY_HEADER] =
key`: set the header, replacing any previous value. -/
def set_header (hs : List (String × String)) (k v : String) :
    List (String × String) :=
  (k, v) :: hs.filter (fun p => p.1 ≠ k)

/-- The body of the 409 conflict JSON of `idempotency.py`
(abbreviated). -/
def conflict_body : String :=
  "this request is already being processed. please retry in a few seconds."

/-- Embedding of `IdempotencyMiddleware.dispatch` for one keyed POST request, after
the header check: try `acquire_lock`; when first, run the handler
(modelled by its response) and then `save_response` when the status is
< 400, else `release_lock`, returning the handler's response either
way; when not first, replay a COMPLETED record verbatim with the
idempotency key echoed in the headers, and otherwise (PROCESSING still
stored, or the entry just expired) answer 409 with Retry-After 5. -/
def dispatch (c : IdemCache) (k : String) (handler : HttpResponse) :
    HttpResponse × IdemCache :=
  match acquire_lock c k with
  | (true, c1) =>
    if handler.status_code < 400 then
      (handler, save_response c1 k handler.body handler.status_code handler.headers)
    else
      (handler, release_lock c1 k)
  | (false, _) =>
    match check_existing c k with
    | some (.completed b sc hs) =>
      ({ body := b, status_code := sc,
         headers := set_header hs IDEMPOTENCY_HEADER k }, c)
    | _ =>
      ({ body := conflict_body, status_code := 409,
         headers := [("Retry-After", "5"), (IDEMPOTENCY_HEADER, k)] }, c)

/-!
HMAC-SHA256 as used by `generate_webhook_signature` /
`verify_webhook_signature` (`app/core/security.py`), which delegate to
Python's `hmac` and `hashlib.sha256`.  The algorithm (FIPS 180-4 /
RFC 2104) is embedded over `Nat` with arithmetic mod 2^32; `str`
payloads and secrets are modelled by their UTF-8 byte lists.
-/

/-- The word modulus of SHA-256, 2^32. -/
def w32 : Nat := 4294967296

/-- Right rotation of a 32-bit word. -/
def rotr32 (n x : Nat) : Nat := ((x >>> n) ||| (x <<< (32 - n))) % w32

/-- Bitwise complement within 32 bits. -/
def not32 (x : Nat) : Nat := x ^^^ 4294967295

def sha256_ch (e f g : Nat) : Nat := (e &&& f) ^^^ (not32 e &&& g)

def sha256_maj (a b c : Nat) : Nat := ((a &&& b) ^^^ (a &&& c)) ^^^ (b &&& c)

def sha256_bigSigma0 (x : Nat) : Nat := rotr32 2 x ^^^ rotr32 13 x ^^^ rotr32 22 x

def sha256_bigSigma1 (x : Nat) : Nat := rotr32 6 x ^^^ rotr32 11 x ^^^ rotr32 25 x

def sha256_smallSigma0 (x : Nat) : Nat := rotr32 7 x ^^^ rotr32 18 x ^^^ (x >>> 3)

def sha256_smallSigma1 (x : Nat) : Nat := rotr32 17 x ^^^ rotr32 19 x ^^^ (x >>> 10)

/-- The 64 round constants of SHA-256 (FIPS 180-4 section 4.2.2), in
decimal. -/
def sha256_k : List Nat :=
  [1116352408, 1899447441, 3049323471, 3921009573, 961987163,
   1508970993, 2453635748, 2870763221, 3624381080, 310598401,
   607225278, 1426881987, 1925078388, 2162078206, 2614888103,
   3248222580, 3835390401, 4022224774, 264347078, 604807628,
   770255983, 1249150122, 1555081692, 1996064986, 2554220882,
   2821834349, 2952996808, 3210313671, 3336571891, 3584528711,
   113926993, 338241895, 666307205, 773529912, 1294757372,
   1396182291, 1695183700, 1986661051, 2177026350, 2456956037,
   2730485921, 2820302411, 3259730800, 3345764771, 3516065817,
   3600352804, 4094571909, 275423344, 430227734, 506948616,
   659060556, 883997877, 958139571, 1322822218, 1537002063,
   1747873779, 1955562222, 2024104815, 2227730452, 2361852424,
   2428436474, 2756734187, 3204031479, 3329325298]

/-- The initial hash value of SHA-256 (FIPS 180-4 section 5.3.3), in
decimal. -/
def sha256_h0 : List Nat :=
  [1779033703, 3144134277, 1013904242, 2773480762,
   1359893119, 2600822924, 528734635, 1541459225]

/-- Big-endian grouping of bytes into 32-bit words. -/
def bytesToWords : List Nat → List Nat
  | b0 :: b1 :: b2 :: b3 :: rest =>
    (((b0 * 256 + b1) * 256 + b2) * 256 + b3) :: bytesToWords rest
  | _ => []

/-- One extension step of the message schedule: append
`σ1 w[i-2] + w[i-7] + σ0 w[i-15] + w[i-16]`. -/
def scheduleStep (ws : List Nat) : List Nat :=
  ws ++ [(sha256_smallSigma1 (ws.getD (ws.length - 2) 0) +
          ws.getD (ws.length - 7) 0 +
          sha256_smallSigma0 (ws.getD (ws.length - 15) 0) +
          ws.getD (ws.length - 16) 0) % w32]

/-- Extend the 16-word schedule by `n` words. -/
def extendSchedule : Nat → List Nat → List Nat
  | 0, ws => ws
  | n + 1, ws => extendSchedule n (scheduleStep ws)

/-- One round of the SHA-256 compression function on the 8-word working
state, with `wk = (w_i, k_i)`. -/
def compressStep (st : List Nat) (wk : Nat × Nat) : List Nat :=
  match st with
  | [a, b, c, d, e, f, g, h] =>
    let t1 := (h + sha256_bigSigma1 e + sha256_ch e f g + wk.2 + wk.1) % w32
    let t2 := (sha256_bigSigma0 a + sha256_maj a b c) % w32
    [(t1 + t2) % w32, a, b, c, (d + t1) % w32, e, f, g]
  | _ => st

/-- Process one 64-byte chunk: build the 64-word schedule, run the 64
compression rounds, add the result into the hash value. -/
def sha256Chunk (H : List Nat) (chunk : List Nat) : List Nat :=
  let ws := extendSchedule 48 (bytesToWords chunk)
  let st := (ws.zip sha256_k).foldl compressStep H
  (H.zip st).map (fun p => (p.1 + p.2) % w32)

/-- Split a byte list into 64-byte chunks (`fuel` bounds the recursion;
callers pass the list length). -/
def chunks64 : Nat → List Nat → List (List Nat)
  | 0, _ => []
  | _, [] => []
  | n + 1, l => l.take 64 :: chunks64 n (l.drop 64)

/-- Big-endian `n`-byte encoding of a number. -/
def natToBytesBE : Nat → Nat → List Nat
  | 0, _ => []
  | n + 1, x => natToBytesBE n (x / 256) ++ [x % 256]

/-- SHA-256 padding: append `0x80`, zeros to 56 mod 64, and the
bit length as 8 bytes big-endian. -/
def sha256Pad (msg : List Nat) : List Nat :=
  let l := msg.length
  let zeros := (119 - l % 64) % 64
  msg ++ [128] ++ List.replicate zeros 0 ++ natToBytesBE 8 (l * 8)

/-- Big-endian bytes of one 32-bit word. -/
def wordToBytes (x : Nat) : List Nat :=
  [x / 16777216 % 256, x / 65536 % 256, x / 256 % 256, x % 256]

/-- SHA-256 of a byte list, as the 32 digest bytes. -/
def sha256 (msg : List Nat) : List Nat :=
  let padded := sha256Pad msg
  let H := (chunks64 padded.length padded).foldl sha256Chunk sha256_h0
  (H.map wordToBytes).flatten

/-- The sixteen lowercase hex digits. -/
def hexChars : List Char := "0123456789abcdef".toList

/-- Lowercase hex of one byte. -/
def byteToHex (b : Nat) : List Char :=
  [hexChars.getD (b / 16 % 16) '0', hexChars.getD (b % 16) '0']

/-- Embedding of `hexdigest()`: lowercase hex string of a byte list. -/
def bytesToHexString (bs : List Nat) : String :=
  String.mk ((bs.map byteToHex).flatten)

/-- HMAC-SHA256 (RFC 2104) with block size 64: hash an over-long key,
zero-pad, XOR with ipad/opad, two hash passes. -/
def hmac_sha256 (key msg : List Nat) : List Nat :=
  let k0 := if 64 < key.length then sha256 key else key
  let kp := k0 ++ List.replicate (64 - k0.length) 0
  let ipadded := kp.map (fun b => b ^^^ 0x36)
  let opadded := kp.map (fun b => b ^^^ 0x5c)
  sha256 (opadded ++ sha256 (ipadded ++ msg))

/-- Embedding of `generate_webhook_signature` (`security.py` 46-47):
`hmac.new(secret.encode(), payload.encode(), sha256).hexdigest()`.
Payload and secret are given as their UTF-8 bytes. -/
def generate_webhook_signature (payload secret : List Nat) : String :=
  bytesToHexString (hmac_sha256 secret payload)

/-- Embedding of `verify_webhook_signature` (`security.py` 41-43): recompute the
expected hex signature and compare; `hmac.compare_digest` is a
constant-time equality of the two strings. -/
def verify_webhook_signature (payload : List Nat) (signature : String)
    (secret : List Nat) : Bool :=
  signature == generate_webhook_signature payload secret

/-!
Theorems.  Sanity of the hash embedding first (FIPS 180-4 and RFC 4231
test vectors), then one theorem per claim, with witnesses.
-/

/-- The embedded SHA-256 reproduces the FIPS 180-4 digest of the empty
message. -/
theorem sha256_empty_test_vector :
    bytesToHexString (sha256 []) =
      "e3b0c44298fc1c149afbf4c8996fb92427ae41e4649b934ca495991b7852b855" := by
  rfl

set_option maxRecDepth 100000 in
/-- The embedded SHA-256 reproduces the FIPS 180-4 digest of "abc"
(bytes 97, 98, 99). -/
theorem sha256_abc_test_vector :
    bytesToHexString (sha256 [97, 98, 99]) =
      "ba7816bf8f01cfea414140de5dae2223b00361a396177a9cb410ff61f20015ad" := by
  rfl

set_option maxRecDepth 100000 in
/-- The embedded HMAC-SHA256 reproduces RFC 4231 test case 2: key
"Jefe", message "what do ya want for nothing?", given as ASCII
bytes. -/
theorem hmac_sha256_rfc4231_case2 :
    bytesToHexString (hmac_sha256 [74, 101, 102, 101]
        [119, 104, 97, 116, 32, 100, 111, 32, 121, 97, 32, 119, 97, 110,
         116, 32, 102, 111, 114, 32, 110, 111, 116, 104, 105, 110, 103, 63]) =
      "5bdcc146bf60754e6a042426089575c75a003f089d2739839dec58b964ec3843" := by
  rfl

/-- Round trip: verifying a payload against the signature generated for
it under the same secret always succeeds. -/
theorem webhook_signature_roundtrip (p s : List Nat) :
    verify_webhook_signature p (generate_webhook_signature p s) s = true := by
  simp [verify_webhook_signature]

/-- Verification is exact comparison with the recomputed signature: any
supplied signature string other than the correct one — in particular
any single-byte mutation of it — is rejected. -/
theorem webhook_signature_mismatch_rejected (p s : List Nat) (sig : String)
    (h : sig ≠ generate_webhook_signature p s) :
    verify_webhook_signature p sig s = false := by
  simp only [verify_webhook_signature, beq_eq_false_iff_ne, ne_eq]
  exact h

/-- C1: the worker's `process` has no terminal-status guard.  On a
duplicate delivery of a deposit already in the terminal status SUCCESS
(amount 5, account balance 10) with the bank answering SUCCESS again,
`update_status` first commits the backwards transition
SUCCESS → PROCESSING, and the job then re-runs the completion, leaving
the balance at 15 — credited a second time — instead of observing the
terminal status and leaving state unchanged. -/
theorem process_reprocesses_terminal_transaction :
    (Txn.mk .SUCCESS 5 .DEPOSIT).status.isTerminal = true ∧
    update_status ⟨some ⟨.SUCCESS, 5, .DEPOSIT⟩, 10⟩ .PROCESSING =
      .ok ⟨some ⟨.PROCESSING, 5, .DEPOSIT⟩, 10⟩ ∧
    process ⟨some ⟨.SUCCESS, 5, .DEPOSIT⟩, 10⟩ .SUCCESS 0 3 .DEPOSIT =
      (⟨some ⟨.SUCCESS, 5, .DEPOSIT⟩, 15⟩, .success) := by
  refine ⟨rfl, rfl, ?_⟩
  norm_num [process, update_status, complete_transaction, complete_deposit,
    complete_deposit_locked, add_balance]

/-- C3: starting from a nonnegative balance, `add_balance` only ever
increases it, `subtract_balance` raises `InsufficientBalanceError`
whenever `balance < amount` (committing nothing), and any balance
either operation commits is again nonnegative. -/
theorem balance_mutations_preserve_nonneg (b a b1 b2 : ℚ) (hb : 0 ≤ b) :
    (add_balance b a = .ok b1 → b < b1 ∧ 0 ≤ b1) ∧
    (b < a → subtract_balance b a = .error .insufficientBalance) ∧
    (subtract_balance b a = .ok b2 → 0 ≤ b2) := by
  refine ⟨?_, ?_, ?_⟩
  · intro h
    simp only [add_balance] at h
    by_cases ha : a ≤ 0
    · rw [if_pos ha] at h
      exact absurd h (by simp)
    · rw [if_neg ha] at h
      injection h with h
      subst h
      have ha2 : 0 < a := not_le.mp ha
      constructor <;> linarith
  · intro hlt
    simp only [subtract_balance]
    rw [if_neg (by linarith : ¬ a ≤ 0), if_pos hlt]
  · intro h
    simp only [subtract_balance] at h
    by_cases ha : a ≤ 0
    · rw [if_pos ha] at h
      exact absurd h (by simp)
    · rw [if_neg ha] at h
      by_cases hba : b < a
      · rw [if_pos hba] at h
        exact absurd h (by simp)
      · rw [if_neg hba] at h
        injection h with h
        subst h
        have := not_lt.mp hba
        linarith

/-- Witness for C3 at balance 10, amount 4. -/
theorem balance_mutations_preserve_nonneg_witness :
    (0:ℚ) ≤ 10 ∧
    ((add_balance 10 4 = .ok 14 → (10:ℚ) < 14 ∧ (0:ℚ) ≤ 14) ∧
     ((10:ℚ) < 4 → subtract_balance 10 4 = .error .insufficientBalance) ∧
     (subtract_balance 10 4 = .ok 6 → (0:ℚ) ≤ 6)) :=
  ⟨by norm_num, balance_mutations_preserve_nonneg 10 4 14 6 (by norm_num)⟩

/-- C6: `create_pending_withdrawal` on an account with
`balance < amount` raises `InsufficientBalanceError` before inserting
any row or touching the balance; with `balance ≥ amount` it commits
exactly one new Transaction row with status PENDING and type
WITHDRAWAL, and performs no debit (the committed balance is
unchanged). -/
theorem create_pending_withdrawal_spec (db : CreationDB) (a : ℚ) :
    (db.balance < a →
      create_pending_withdrawal db a = .error .insufficientBalance) ∧
    (a ≤ db.balance →
      create_pending_withdrawal db a =
        .ok ({ db with txs := db.txs ++ [⟨.PENDING, a, .WITHDRAWAL⟩] },
             ⟨.PENDING, a, .WITHDRAWAL⟩)) := by
  constructor
  · intro h
    simp only [create_pending_withdrawal]
    rw [if_pos h]
  · intro h
    simp only [create_pending_withdrawal]
    rw [if_neg (not_lt.mpr h)]

/-- Witness for C6: balance 3 rejects a withdrawal of 5 with no row
created; balance 10 accepts a withdrawal of 4, appending one PENDING
WITHDRAWAL row and leaving the balance at 10. -/
theorem create_pending_withdrawal_witness :
    create_pending_withdrawal ⟨3, []⟩ 5 = .error .insufficientBalance ∧
    create_pending_withdrawal ⟨10, []⟩ 4 =
      .ok (⟨10, [⟨.PENDING, 4, .WITHDRAWAL⟩]⟩, ⟨.PENDING, 4, .WITHDRAWAL⟩) :=
  ⟨(create_pending_withdrawal_spec ⟨3, []⟩ 5).1 (by norm_num),
   (create_pending_withdrawal_spec ⟨10, []⟩ 4).2 (by norm_num)⟩

/-- C2: completing a withdrawal after bank SUCCESS.  If the locked
account's balance is below the transaction amount, the completion
aborts with `InsufficientBalanceError` (committing nothing), and the
worker — the exception reaching `_handle_exception` on the delivery
whose retries are exhausted — marks the transaction PENDING_REVIEW with
the balance unchanged.  Otherwise the completion commits, in its single
DB transaction, both the decremented balance and the SUCCESS status,
and the job returns success. -/
theorem complete_withdrawal_insufficient_or_success
    (db : WorkerDB) (t : Txn) (retries max_retries : Nat)
    (htx : db.tx = some t) (hpos : 0 < t.amount)
    (hexh : retries ≥ max_retries) :
    (db.balance < t.amount →
      complete_withdrawal none db = .error .insufficientBalance ∧
      process db .SUCCESS retries max_retries .WITHDRAWAL =
        ({ db with tx := some { t with status := .PENDING_REVIEW } },
         .pendingReview)) ∧
    (t.amount ≤ db.balance →
      complete_withdrawal none db =
        .ok { tx := some { t with status := .SUCCESS },
              balance := db.balance - t.amount } ∧
      process db .SUCCESS retries max_retries .WITHDRAWAL =
        ({ tx := some { t with status := .SUCCESS },
           balance := db.balance - t.amount }, .success)) := by
  obtain ⟨otx, bal⟩ := db
  obtain ⟨ts, ta, tk⟩ := t
  have htx2 : otx = some ⟨ts, ta, tk⟩ := htx
  have hpos2 : 0 < ta := hpos
  subst htx2
  constructor
  · intro hlt
    have hlt2 : bal < ta := hlt
    have hsub : subtract_balance bal ta = .error .insufficientBalance := by
      simp only [subtract_balance]
      rw [if_neg (by linarith : ¬ ta ≤ 0), if_pos hlt2]
    constructor
    · simp only [complete_withdrawal, complete_withdrawal_locked, hsub]
    · simp only [process, update_status, complete_transaction, complete_withdrawal,
        complete_withdrawal_locked, hsub, handle_exception, Err.mentionsNotFound,
        mark_for_review, mark_pending_review, Bool.false_eq_true, if_false]
      rw [if_pos hexh]
  · intro hge
    have hge2 : ta ≤ bal := hge
    have hsub : subtract_balance bal ta = .ok (bal - ta) := by
      simp only [subtract_balance]
      rw [if_neg (by linarith : ¬ ta ≤ 0), if_neg (not_lt.mpr hge2)]
    constructor
    · simp only [complete_withdrawal, complete_withdrawal_locked, hsub]
    · simp only [process, update_status, complete_transaction, complete_withdrawal,
        complete_withdrawal_locked, hsub]

/-- Witness for C2: a withdrawal of 5 against balance 3 on the final
delivery (retries 3 of 3) ends PENDING_REVIEW with the balance still 3;
against balance 8 it ends SUCCESS with balance 8 - 5. -/
theorem complete_withdrawal_insufficient_or_success_witness :
    process ⟨some ⟨.PENDING, 5, .WITHDRAWAL⟩, 3⟩ .SUCCESS 3 3 .WITHDRAWAL =
      (⟨some ⟨.PENDING_REVIEW, 5, .WITHDRAWAL⟩, 3⟩, .pendingReview) ∧
    process ⟨some ⟨.PENDING, 5, .WITHDRAWAL⟩, 8⟩ .SUCCESS 3 3 .WITHDRAWAL =
      (⟨some ⟨.SUCCESS, 5, .WITHDRAWAL⟩, 8 - 5⟩, .success) :=
  ⟨((complete_withdrawal_insufficient_or_success ⟨some ⟨.PENDING, 5, .WITHDRAWAL⟩, 3⟩
      ⟨.PENDING, 5, .WITHDRAWAL⟩ 3 3 rfl (by norm_num) (le_refl 3)).1 (by norm_num)).2,
   ((complete_withdrawal_insufficient_or_success ⟨some ⟨.PENDING, 5, .WITHDRAWAL⟩, 8⟩
      ⟨.PENDING, 5, .WITHDRAWAL⟩ 3 3 rfl (by norm_num) (le_refl 3)).2 (by norm_num)).2⟩

/-- C4: on a fresh key, the first dispatched request runs the handler
and gets its response; when that response had status < 400, a second
request with the same key replays the cached body and status code
byte-for-byte with the idempotency key echoed in the headers; and
whenever the stored entry is still the PROCESSING sentinel, a request
is answered 409 with Retry-After 5 and the key echoed. -/
theorem idempotency_middleware_replay (c0 cp : IdemCache) (k : String)
    (h1 h2 hp : HttpResponse)
    (hnew : c0 (idem_key k) = none) (hok : h1.status_code < 400)
    (hproc : cp (idem_key k) = some .processing) :
    (dispatch c0 k h1).1 = h1 ∧
    (dispatch (dispatch c0 k h1).2 k h2).1.body = h1.body ∧
    (dispatch (dispatch c0 k h1).2 k h2).1.status_code = h1.status_code ∧
    (IDEMPOTENCY_HEADER, k) ∈ (dispatch (dispatch c0 k h1).2 k h2).1.headers ∧
    (dispatch cp k hp).1.status_code = 409 ∧
    ("Retry-After", "5") ∈ (dispatch cp k hp).1.headers ∧
    (IDEMPOTENCY_HEADER, k) ∈ (dispatch cp k hp).1.headers := by
  have hstep1 : dispatch c0 k h1 =
      (h1, save_response (fun x => if x = idem_key k then some .processing else c0 x)
        k h1.body h1.status_code h1.headers) := by
    simp only [dispatch, acquire_lock, hnew]
    rw [if_pos hok]
  have hreplay : ∀ (c : IdemCache) (h : HttpResponse),
      c (idem_key k) = some (.completed h1.body h1.status_code h1.headers) →
      dispatch c k h =
        ({ body := h1.body, status_code := h1.status_code,
           headers := set_header h1.headers IDEMPOTENCY_HEADER k }, c) := by
    intro c h hc
    simp only [dispatch, acquire_lock, check_existing, hc]
  have hstep2 : dispatch (dispatch c0 k h1).2 k h2 =
      ({ body := h1.body, status_code := h1.status_code,
         headers := set_header h1.headers IDEMPOTENCY_HEADER k },
       (dispatch c0 k h1).2) := by
    apply hreplay
    rw [hstep1]
    simp [save_response]
  have hstep3 : dispatch cp k hp =
      ({ body := conflict_body, status_code := 409,
         headers := [("Retry-After", "5"), (IDEMPOTENCY_HEADER, k)] }, cp) := by
    simp only [dispatch, acquire_lock, check_existing, hproc]
  refine ⟨by rw [hstep1], by rw [hstep2], by rw [hstep2], ?_, by rw [hstep3], ?_, ?_⟩
  · rw [hstep2]
    simp [set_header]
  · rw [hstep3]
    simp
  · rw [hstep3]
    simp

/-- Witness for C4 on the key "idem-1", an empty initial cache, a first
response with body "resp1" and status 202, and a cache still holding
the PROCESSING sentinel. -/
theorem idempotency_middleware_replay_witness :
    ((fun _ => none : IdemCache) (idem_key "idem-1") = none ∧
     (202 : Nat) < 400 ∧
     (fun x => if x = idem_key "idem-1" then some IdemEntry.processing else none :
       IdemCache) (idem_key "idem-1") = some .processing) ∧
    ((dispatch (fun _ => none) "idem-1" ⟨"resp1", 202, []⟩).1 = ⟨"resp1", 202, []⟩ ∧
     (dispatch (dispatch (fun _ => none) "idem-1" ⟨"resp1", 202, []⟩).2 "idem-1"
        ⟨"resp2", 201, []⟩).1.body = "resp1" ∧
     (dispatch (dispatch (fun _ => none) "idem-1" ⟨"resp1", 202, []⟩).2 "idem-1"
        ⟨"resp2", 201, []⟩).1.status_code = 202 ∧
     (IDEMPOTENCY_HEADER, "idem-1") ∈
       (dispatch (dispatch (fun _ => none) "idem-1" ⟨"resp1", 202, []⟩).2 "idem-1"
         ⟨"resp2", 201, []⟩).1.headers ∧
     (dispatch (fun x => if x = idem_key "idem-1" then some .processing else none)
        "idem-1" ⟨"x", 200, []⟩).1.status_code = 409 ∧
     ("Retry-After", "5") ∈
       (dispatch (fun x => if x = idem_key "idem-1" then some .processing else none)
         "idem-1" ⟨"x", 200, []⟩).1.headers ∧
     (IDEMPOTENCY_HEADER, "idem-1") ∈
       (dispatch (fun x => if x = idem_key "idem-1" then some .processing else none)
         "idem-1" ⟨"x", 200, []⟩).1.headers) :=
  ⟨⟨rfl, by norm_num, by simp⟩,
   idempotency_middleware_replay (fun _ => none)
     (fun x => if x = idem_key "idem-1" then some .processing else none)
     "idem-1" ⟨"resp1", 202, []⟩ ⟨"resp2", 201, []⟩ ⟨"x", 200, []⟩
     rfl (by norm_num) (by simp)⟩

/-- C5 counterexample: an HTTP 408 (and likewise 429) webhook response
is classified by the task as a permanent failure — the delivery row is
marked FAILED and nothing is raised for retry — not as a
retryable outcome as the claim states. -/
theorem webhook_408_429_not_retried :
    send_webhook_attempt (some 408) 0 = .permanentFailure ∧
    send_webhook_attempt (some 429) 0 = .permanentFailure ∧
    send_webhook_attempt (some 408) 0 ≠ .retryRaise .PENDING ∧
    send_webhook_attempt (some 408) 0 ≠ .retryRaise .FAILED := by
  refine ⟨?_, ?_, ?_, ?_⟩ <;> decide

/-- C5 as amended: a 2xx response is delivered (row SUCCESS, done); a
5xx response or a network/timeout error is raised for Celery to retry
(backoff cap 600s, max_retries 5), the row left FAILED once the retry
count reaches max_retries − 1 and PENDING before that; every other
response — 408 and 429 included — is a permanent failure with no
retry. -/
theorem webhook_attempt_classification (code retries : Nat) :
    (200 ≤ code → code < 300 →
      send_webhook_attempt (some code) retries = .delivered) ∧
    (500 ≤ code → code < 600 →
      send_webhook_attempt (some code) retries =
        .retryRaise (if retries ≥ WEBHOOK_MAX_RETRIES - 1 then .FAILED else .PENDING)) ∧
    (¬ (500 ≤ code ∧ code < 600) → ¬ (200 ≤ code ∧ code < 300) →
      send_webhook_attempt (some code) retries = .permanentFailure) ∧
    send_webhook_attempt none retries =
      .retryRaise (if retries ≥ WEBHOOK_MAX_RETRIES - 1 then .FAILED else .PENDING) ∧
    WEBHOOK_MAX_RETRIES = 5 ∧ WEBHOOK_RETRY_BACKOFF_MAX = 600 := by
  refine ⟨?_, ?_, ?_, rfl, rfl, rfl⟩
  · intro h2 h3
    simp only [send_webhook_attempt]
    rw [if_neg (by omega), if_pos ⟨h2, h3⟩]
  · intro h5 h6
    simp only [send_webhook_attempt]
    rw [if_pos ⟨h5, h6⟩]
  · intro hn5 hn2
    simp only [send_webhook_attempt]
    rw [if_neg hn5, if_neg hn2]

/-- Witness for the amended C5: a 503 on the final permitted retry
(retries = 4) leaves the row FAILED and re-raises; a 200 at first
attempt is delivered; a network error at first attempt re-raises with
the row back to PENDING. -/
theorem webhook_attempt_classification_witness :
    send_webhook_attempt (some 503) 4 = .retryRaise .FAILED ∧
    send_webhook_attempt (some 200) 0 = .delivered ∧
    send_webhook_attempt none 0 = .retryRaise .PENDING := by
  refine ⟨?_, ?_, ?_⟩
  · have h := (webhook_attempt_classification 503 4).2.1 (by norm_num) (by norm_num)
    simpa using h
  · exact (webhook_attempt_classification 200 0).1 (by norm_num) (by norm_num)
  · have h := (webhook_attempt_classification 200 0).2.2.2.1
    simpa using h

/-- C7: `release` is owner-fenced.  When instance B still believes it
holds the lock but the stored token is some other instance's (C's),
release deletes nothing, leaves C's lease in place, and returns false;
an immediately repeated release (acquired now false) is a no-op
returning false; and in general the release can change the cache only
when the caller's acquired flag is set and the stored value equals the
caller's own owner token. -/
theorem lock_release_owner_fenced (c : LockCache) (B : SyncLock) (tc : String)
    (c2 : LockCache) (l2 : SyncLock)
    (hacq : B.acquired = true) (hstored : c B.key = some tc)
    (hne : tc ≠ B.lock_identifier) :
    lock_release c B = (c, { B with acquired := false }, false) ∧
    lock_release c { B with acquired := false } =
      (c, { B with acquired := false }, false) ∧
    ((lock_release c2 l2).1 ≠ c2 →
      l2.acquired = true ∧ c2 l2.key = some l2.lock_identifier) := by
  refine ⟨?_, ?_, ?_⟩
  · simp [lock_release, hacq, hstored, hne]
  · simp [lock_release]
  · intro hchanged
    by_cases ha : l2.acquired = true
    · refine ⟨ha, ?_⟩
      cases hv : c2 l2.key with
      | none =>
        exfalso
        apply hchanged
        simp [lock_release, ha, hv]
      | some v =>
        by_cases hvv : v = l2.lock_identifier
        · exact congrArg some hvv
        · exfalso
          apply hchanged
          simp [lock_release, ha, hv, hvv]
    · exfalso
      apply hchanged
      simp [lock_release, ha]

/-- Witness for C7: B (token "token-B") releasing while the store holds
C's token "token-C" leaves the store unchanged and returns false, and
the repeated release is also a false no-op. -/
theorem lock_release_owner_fenced_witness :
    ((⟨"lock:account:42", "token-B", true⟩ : SyncLock).acquired = true ∧
     (fun x => if x = "lock:account:42" then some "token-C" else none : LockCache)
       (⟨"lock:account:42", "token-B", true⟩ : SyncLock).key = some "token-C" ∧
     "token-C" ≠ "token-B") ∧
    (lock_release (fun x => if x = "lock:account:42" then some "token-C" else none)
        ⟨"lock:account:42", "token-B", true⟩ =
      ((fun x => if x = "lock:account:42" then some "token-C" else none),
       ⟨"lock:account:42", "token-B", false⟩, false) ∧
     lock_release (fun x => if x = "lock:account:42" then some "token-C" else none)
        ⟨"lock:account:42", "token-B", false⟩ =
      ((fun x => if x = "lock:account:42" then some "token-C" else none),
       ⟨"lock:account:42", "token-B", false⟩, false)) :=
  ⟨⟨rfl, by simp, by decide⟩,
   have h := lock_release_owner_fenced
     (fun x => if x = "lock:account:42" then some "token-C" else none)
     ⟨"lock:account:42", "token-B", true⟩ "token-C" (fun _ => none) ⟨"k", "t", false⟩
     rfl (by simp) (by decide)
   ⟨h.1, h.2.1⟩⟩

/-- C8: with the breaker OPEN and a failure recorded at time `t`, a
`can_execute` at `now` with `now - t ≥ timeout_seconds` returns true
and moves the breaker to HALF_OPEN; with `now - t < timeout_seconds`
it returns false and the breaker stays OPEN unchanged. -/
theorem circuit_breaker_open_reset (cb : CircuitBreaker) (t now : ℚ)
    (hopen : cb.state = .OPEN) (hlf : cb.last_failure_time = some t) :
    (cb.timeout_seconds ≤ now - t →
      can_execute cb now = (true, transition_to_half_open cb) ∧
      (transition_to_half_open cb).state = .HALF_OPEN) ∧
    (now - t < cb.timeout_seconds →
      can_execute cb now = (false, cb) ∧ cb.state = .OPEN) := by
  obtain ⟨ft, ts, sth, st, fc, sc, lft⟩ := cb
  have hst : st = .OPEN := hopen
  have hlft : lft = some t := hlf
  subst hst
  subst hlft
  constructor
  · intro h
    refine ⟨?_, rfl⟩
    simp [can_execute, should_attempt_reset, h]
  · intro h
    refine ⟨?_, rfl⟩
    simp [can_execute, should_attempt_reset, not_le.mpr h]

/-- Witness for C8: an OPEN breaker (timeout 30s, last failure at
t = 100) admits the call at now = 130 and moves to HALF_OPEN. -/
theorem circuit_breaker_open_reset_witness :
    ((30 : ℚ) ≤ 130 - 100 →
      can_execute ⟨5, 30, 2, .OPEN, 5, 0, some 100⟩ 130 =
        (true, transition_to_half_open ⟨5, 30, 2, .OPEN, 5, 0, some 100⟩) ∧
      (transition_to_half_open ⟨5, 30, 2, .OPEN, 5, 0, some 100⟩).state =
        .HALF_OPEN) ∧
    ((130 : ℚ) - 100 < 30 →
      can_execute ⟨5, 30, 2, .OPEN, 5, 0, some 100⟩ 130 =
        (false, ⟨5, 30, 2, .OPEN, 5, 0, some 100⟩) ∧
      (⟨5, 30, 2, .OPEN, 5, 0, some 100⟩ : CircuitBreaker).state = .OPEN) :=
  circuit_breaker_open_reset ⟨5, 30, 2, .OPEN, 5, 0, some 100⟩ 100 130 rfl rfl

/-- C10: `SyncDistributedLock.acquire` is total over cache failures —
any exception from the cache call yields `acquired = false` and the
return value false instead of propagating — so the locked deposit and
withdrawal completions turn a cache outage into
`ConcurrentUpdateError`, never an uncaught cache error. -/
theorem sync_lock_acquire_swallows_cache_errors (db : WorkerDB) (t : Txn)
    (l : SyncLock) (e : String) (htx : db.tx = some t) :
    sync_lock_acquire l (.error e) = ({ l with acquired := false }, false) ∧
    complete_withdrawal (some (l, .error e)) db = .error .concurrentUpdate ∧
    complete_deposit (some (l, .error e)) db = .error .concurrentUpdate := by
  obtain ⟨otx, bal⟩ := db
  have htx2 : otx = some t := htx
  subst htx2
  exact ⟨rfl, rfl, rfl⟩

/-- Witness for C10 with a "connection refused" cache error during a
withdrawal completion. -/
theorem sync_lock_acquire_swallows_cache_errors_witness :
    sync_lock_acquire ⟨"lock:account:1", "tok", false⟩ (.error "connection refused") =
      (⟨"lock:account:1", "tok", false⟩, false) ∧
    complete_withdrawal (some (⟨"lock:account:1", "tok", false⟩,
        .error "connection refused")) ⟨some ⟨.PENDING, 5, .WITHDRAWAL⟩, 10⟩ =
      .error .concurrentUpdate ∧
    complete_deposit (some (⟨"lock:account:1", "tok", false⟩,
        .error "connection refused")) ⟨some ⟨.PENDING, 5, .WITHDRAWAL⟩, 10⟩ =
      .error .concurrentUpdate :=
  sync_lock_acquire_swallows_cache_errors ⟨some ⟨.PENDING, 5, .WITHDRAWAL⟩, 10⟩
    ⟨.PENDING, 5, .WITHDRAWAL⟩ ⟨"lock:account:1", "tok", false⟩
    "connection refused" rfl
